import Mathlib

/-!
Shallow embedding of the invoice-approval-system processing core:
the validation engine (src/services/validationService.js), the confidence
scorer and extraction fallback (src/services/extractionService.js), and the
processing orchestrator (src/services/processingService.js).

Modelling conventions:
* JS numbers are rationals (`ℚ`); optional / possibly-missing fields are
  `Option`s, with `none` playing the role of `undefined` (falsy, and all
  `<`/`<=`/`>` comparisons against it are `false`, as for `undefined` in JS).
* JS `Date` values are epoch milliseconds (`ℤ`); a date *field* is
  `Option JsDate` where the outer `Option` is field presence and the inner
  one is parse success (`none` = `NaN` date).  The current time is passed
  explicitly as a `now` parameter.
* Numeric rendering inside diagnostic strings abstracts JS number formatting
  (`toString`/`toFixed(2)`) by `Rat` printing; only the identity and payload
  of each message matter for the properties below, never its exact spelling.
* Purely descriptive fields that no modelled check reads (addresses, phone,
  payment terms, line-item descriptions, ...) are omitted from the record.
-/

namespace InvoiceApproval

/-- A possibly missing JS number (`none` = `undefined`/absent). -/
abbrev JsNum := Option ℚ

/-- JS truthiness of a numeric field: present and nonzero. -/
def numTruthy : JsNum → Bool
  | none => false
  | some x => x != 0

/-- JS truthiness of a string field: present and nonempty. -/
def strTruthy : Option String → Bool
  | none => false
  | some s => s != ""

/-- JS `x <= c` where `x` may be `undefined` (comparison with `undefined` is false). -/
def jsLe (x : JsNum) (c : ℚ) : Bool :=
  match x with
  | none => false
  | some v => v ≤ c

/-- JS `x < c` where `x` may be `undefined`. -/
def jsLt (x : JsNum) (c : ℚ) : Bool :=
  match x with
  | none => false
  | some v => v < c

/-- JS `x > c` where `x` may be `undefined`. -/
def jsGt (x : JsNum) (c : ℚ) : Bool :=
  match x with
  | none => false
  | some v => v > c

/-- JS `x || 0`: default a falsy numeric field to `0`. -/
def numVal (x : JsNum) : ℚ := x.getD 0

/-- JS `Math.round(x * 100) / 100` / `toFixed(2)` on nonnegative values:
round to cents, ties towards `+∞` (`Math.round` semantics). -/
def round2 (x : ℚ) : ℚ := (⌊x * 100 + 1/2⌋ : ℚ) / 100

/-- JS `x % 100 === 0` for a finite number: `x` is an integer multiple
of `100` (i.e. `x` is integral and its numerator is divisible by 100). -/
def isMultipleOf100 (x : ℚ) : Bool := x.den == 1 && x.num % 100 == 0

/-- A parsed JS `Date` value: `none` models an invalid date (`NaN`),
`some t` a timestamp in epoch milliseconds. -/
abbrev JsDate := Option ℤ

/-- One extracted line item (description omitted: no modelled check reads it). -/
structure LineItem where
  quantity : JsNum
  unitPrice : JsNum
  amount : JsNum
  confidence : JsNum
  deriving Repr, DecidableEq

/-- The candidate record produced by extraction, restricted to the fields the
validation engine and confidence scorer read. -/
structure Candidate where
  vendorName : Option String
  vendorEmail : Option String
  invoiceNumber : Option String
  invoiceDate : Option JsDate
  dueDate : Option JsDate
  lineItems : Option (List LineItem)
  subtotal : JsNum
  taxRate : JsNum
  taxAmount : JsNum
  discountAmount : JsNum
  shippingAmount : JsNum
  totalAmount : JsNum
  currency : Option String
  confidenceScore : JsNum
  deriving Repr, DecidableEq

/-- Result shape returned by `validateInvoice`. -/
structure ValidationResult where
  isValid : Bool
  errors : List String
  warnings : List String
  requiresManualReview : Bool
  deriving Repr, DecidableEq

/-- `validateRequiredFields` (validationService.js): a field is reported
missing when it is falsy and not the number `0` (so `totalAmount = 0`
passes the per-field check but still counts as absent for the
line-items-or-total rule, where plain truthiness is used). -/
def validateRequiredFields (invoice : Candidate) : List String :=
  (if strTruthy invoice.vendorName then [] else ["Vendor name is required"]) ++
  (if strTruthy invoice.invoiceNumber then [] else ["Invoice number is required"]) ++
  (if invoice.invoiceDate.isSome then [] else ["Invoice date is required"]) ++
  (if invoice.totalAmount.isSome then [] else ["Total amount is required"]) ++
  (if (match invoice.lineItems with
       | none => true
       | some l => l.isEmpty) && !numTruthy invoice.totalAmount
   then ["Invoice must have line items or a total amount"] else [])

/-- The arithmetic check and positivity warnings for one line item
(the body of the `for` loop of `validateCalculations`). -/
def lineItemChecks (i : ℕ) (item : LineItem) : List String × List String :=
  let errs :=
    if numTruthy item.quantity && numTruthy item.unitPrice && numTruthy item.amount then
      let expected := round2 (numVal item.quantity * numVal item.unitPrice)
      let actual := round2 (numVal item.amount)
      if |expected - actual| > 1/100 then
        ["Line item " ++ toString (i + 1) ++ " calculation error: " ++
          toString (numVal item.quantity) ++ " × " ++ toString (numVal item.unitPrice) ++
          " = " ++ toString expected ++ ", but got " ++ toString actual]
      else []
    else []
  let warns :=
    (if jsLe item.quantity 0 then
      ["Line item " ++ toString (i + 1) ++ " has non-positive quantity: " ++
        toString (numVal item.quantity)] else []) ++
    (if jsLt item.unitPrice 0 then
      ["Line item " ++ toString (i + 1) ++ " has negative unit price: " ++
        toString (numVal item.unitPrice)] else [])
  (errs, warns)

/-- Sum of `item.amount || 0` over the line items (`calculatedSubtotal`). -/
def calculatedSubtotal (items : List LineItem) : ℚ :=
  items.foldl (fun sum item => sum + numVal item.amount) 0

/-- `validateCalculations` (validationService.js), returning
`(errors, warnings)`.  The JS division `diff / x` with `x = 0` yields
`Infinity`, which exceeds the 5% threshold; the `x = 0` disjunct models that. -/
def validateCalculations (invoice : Candidate) : List String × List String :=
  match invoice.lineItems with
  | none => ([], [])
  | some items =>
    if items.isEmpty then ([], [])
    else
      let perItem := items.enum.map fun p => lineItemChecks p.1 p.2
      let itemErrs := (perItem.map Prod.fst).flatten
      let itemWarns := (perItem.map Prod.snd).flatten
      let calcSub := calculatedSubtotal items
      let subChecks : List String × List String :=
        if numTruthy invoice.subtotal then
          let s := numVal invoice.subtotal
          let diff := |s - calcSub|
          if diff > 1/100 then
            if calcSub = 0 ∨ diff / calcSub > 1/20 then
              (["Subtotal mismatch: extracted " ++ toString s ++
                 ", calculated " ++ toString (round2 calcSub)], [])
            else
              ([], ["Minor subtotal discrepancy: " ++ toString s ++
                     " vs " ++ toString (round2 calcSub)])
          else ([], [])
        else ([], [])
      let totChecks : List String × List String :=
        if numTruthy invoice.totalAmount then
          let t := numVal invoice.totalAmount
          let sub := if numTruthy invoice.subtotal then numVal invoice.subtotal else calcSub
          let expectedTotal := sub + numVal invoice.taxAmount -
            numVal invoice.discountAmount + numVal invoice.shippingAmount
          let diff := |t - expectedTotal|
          if diff > 1/100 then
            if expectedTotal = 0 ∨ diff / expectedTotal > 1/20 then
              (["Total mismatch: extracted " ++ toString t ++
                 ", calculated " ++ toString (round2 expectedTotal)], [])
            else
              ([], ["Minor total discrepancy: " ++ toString t ++
                     " vs " ++ toString (round2 expectedTotal)])
          else ([], [])
        else ([], [])
      let taxWarns : List String :=
        if numTruthy invoice.taxRate && numTruthy invoice.taxAmount &&
            numTruthy invoice.subtotal then
          let expectedTax := numVal invoice.subtotal * (numVal invoice.taxRate / 100)
          if |expectedTax - numVal invoice.taxAmount| > 1/100 then
            ["Tax calculation discrepancy: " ++ toString (numVal invoice.taxRate) ++
              "% of " ++ toString (numVal invoice.subtotal) ++ " = " ++
              toString (round2 expectedTax) ++ ", but got " ++
              toString (numVal invoice.taxAmount)]
          else []
        else []
      (itemErrs ++ subChecks.1 ++ totChecks.1,
       itemWarns ++ subChecks.2 ++ totChecks.2 ++ taxWarns)

/-- The email regex `/^[^\s@]+@[^\s@]+\.[^\s@]+$/` of `validateFormats`:
exactly one `@`; a nonempty whitespace-free local part; a whitespace-free
domain containing a `.` that is neither its first nor its last character. -/
def emailRegexTest (s : String) : Bool :=
  match s.toList.splitOn '@' with
  | [loc, dom] =>
    !loc.isEmpty && loc.all (fun c => !c.isWhitespace) &&
    !dom.isEmpty && dom.all (fun c => !c.isWhitespace) &&
    (List.range dom.length).any fun i =>
      decide (0 < i) && decide (i + 1 < dom.length) && (dom.getD i ' ' == '.')
  | _ => false

/-- The currency allow-list of `validateFormats`. -/
def validCurrencies : List String :=
  ["USD", "EUR", "GBP", "CAD", "AUD", "JPY", "CNY", "INR"]

/-- `validateFormats` (validationService.js), returning `(errors, warnings)`.
The raw date text interpolated into the JS messages is not modelled. -/
def validateFormats (now : ℤ) (invoice : Candidate) : List String × List String :=
  let dateChecks : List String × List String :=
    match invoice.invoiceDate with
    | none => ([], [])
    | some none => (["Invalid invoice date format"], [])
    | some (some t) =>
      ([],
        (if t < now - 365 * 24 * 60 * 60 * 1000 then
          ["Invoice date is more than 1 year old"] else []) ++
        (if t > now + 30 * 24 * 60 * 60 * 1000 then
          ["Invoice date is in the future"] else []))
  let dueErrs : List String :=
    match invoice.dueDate with
    | some none => ["Invalid due date format"]
    | _ => []
  let emailWarns : List String :=
    match invoice.vendorEmail with
    | some e =>
      if e != "" && !emailRegexTest e then
        ["Invalid vendor email format: " ++ e]
      else []
    | none => []
  let currencyWarns : List String :=
    match invoice.currency with
    | some c =>
      if c != "" && !(validCurrencies.contains c) then
        ["Unusual currency code: " ++ c]
      else []
    | none => []
  (dateChecks.1 ++ dueErrs, dateChecks.2 ++ emailWarns ++ currencyWarns)

/-- `validateBusinessRules` (validationService.js), returning
`(errors, warnings)`.  The due-date-before-invoice-date comparison is false
in JS whenever either date is `NaN`, hence the double-`some` match. -/
def validateBusinessRules (invoice : Candidate) : List String × List String :=
  let dueErrs : List String :=
    match invoice.invoiceDate, invoice.dueDate with
    | some (some tInv), some (some tDue) =>
      if tDue < tInv then ["Due date is before invoice date"] else []
    | _, _ => []
  let discountChecks : List String × List String :=
    if numTruthy invoice.discountAmount && numTruthy invoice.subtotal then
      let d := numVal invoice.discountAmount
      let s := numVal invoice.subtotal
      ((if d > s then ["Discount amount exceeds subtotal"] else []),
       (if d / s > 1/2 then ["Discount is more than 50% of subtotal"] else []))
    else ([], [])
  let taxRateWarns : List String :=
    if numTruthy invoice.taxRate then
      let r := numVal invoice.taxRate
      if r < 0 ∨ r > 50 then ["Unusual tax rate: " ++ toString r ++ "%"] else []
    else []
  let totalChecks : List String × List String :=
    if numTruthy invoice.totalAmount then
      let t := numVal invoice.totalAmount
      ((if t ≤ 0 then ["Total amount must be positive"] else []),
       (if t > 1000000 then ["Very high invoice amount: " ++ toString t] else []))
    else ([], [])
  (dueErrs ++ discountChecks.1 ++ totalChecks.1,
   discountChecks.2 ++ taxRateWarns ++ totalChecks.2)

/-- The regex `/^0+$/`: a nonempty string made only of the digit zero. -/
def allZeros (s : String) : Bool := s != "" && s.toList.all (· == '0')

/-- `detectAnomalies` (validationService.js): warnings only. -/
def detectAnomalies (invoice : Candidate) : List String :=
  (match invoice.invoiceNumber with
   | some n =>
     if n != "" && allZeros n then ["Invoice number appears to be all zeros"] else []
   | none => []) ++
  (if numTruthy invoice.totalAmount then
    let t := numVal invoice.totalAmount
    if isMultipleOf100 t && decide (t > 1000) then
      ["Total amount is a round number - may be estimated"]
    else []
   else []) ++
  (if jsGt invoice.totalAmount 1000 && !numTruthy invoice.taxAmount &&
      !numTruthy invoice.taxRate then
    ["High invoice amount without tax information"] else []) ++
  (match invoice.lineItems with
   | some items =>
     if items.length > 3 then
       match items.map (·.quantity) with
       | [] => []
       | q0 :: rest =>
         if (q0 :: rest).all (· == q0) then
           ["All line items have identical quantities"]
         else []
     else []
   | none => [])

/-- `validateInvoice` (validationService.js): run all checks in source order,
accumulate errors and warnings, and derive the flags. -/
def validateInvoice (now : ℤ) (invoice : Candidate) : ValidationResult :=
  let reqErrs := validateRequiredFields invoice
  let calcChecks := validateCalculations invoice
  let fmt := validateFormats now invoice
  let biz := validateBusinessRules invoice
  let anomalyWarns := detectAnomalies invoice
  let errors := reqErrs ++ calcChecks.1 ++ fmt.1 ++ biz.1
  let warnings := calcChecks.2 ++ fmt.2 ++ biz.2 ++ anomalyWarns
  { isValid := errors.isEmpty
    errors := errors
    warnings := warnings
    requiresManualReview := decide (errors.length > 0) || decide (warnings.length > 2) }

/-- `adjustConfidenceScore` (validationService.js): subtract `0.1` per error
and `0.02` per warning from the base confidence and clamp to `[0, 1]`. -/
def adjustConfidenceScore (baseConfidence : ℚ) (validationResult : ValidationResult) : ℚ :=
  let adjustment : ℚ :=
    0 - validationResult.errors.length * (1/10) - validationResult.warnings.length * (1/50)
  max 0 (min 1 (baseConfidence + adjustment))

/-- Job lifecycle status values. -/
inductive Status where
  | pending
  | processing
  | completed
  | failed
  | review_required
  deriving Repr, DecidableEq

/-- Step 6 of `processInvoice` (processingService.js:82): the final status of
a successfully extracted job is a function of the validation errors alone. -/
def processInvoiceFinalStatus (validationResult : ValidationResult) : Status :=
  if validationResult.errors.length > 0 then Status.review_required else Status.completed

/-- The status a job ends in when extraction succeeds with candidate
`extracted` (validation at time `now`, then step 6 of `processInvoice`). -/
def processSuccessStatus (now : ℤ) (extracted : Candidate) : Status :=
  processInvoiceFinalStatus (validateInvoice now extracted)

/-- The five "important" fields of `calculateConfidenceScore`
(extractionService.js) and their JS truthiness.  Note that an *empty* line
item array is truthy in JS, so it counts as present here. -/
def importantFieldsPresent (extractedData : Candidate) : ℕ :=
  (if strTruthy extractedData.vendorName then 1 else 0) +
  (if strTruthy extractedData.invoiceNumber then 1 else 0) +
  (if extractedData.invoiceDate.isSome then 1 else 0) +
  (if numTruthy extractedData.totalAmount then 1 else 0) +
  (if extractedData.lineItems.isSome then 1 else 0)

/-- Mean of `item.confidence || 0` over the line items. -/
def meanLineItemConfidence (items : List LineItem) : ℚ :=
  (items.foldl (fun sum item => sum + numVal item.confidence) 0) / items.length

/-- `calculateConfidenceScore` (extractionService.js): average, with equal
weight, of the applicable components among field-presence fraction,
mean line-item confidence, and the extractor-reported overall confidence. -/
def calculateConfidenceScore (extractedData : Candidate) : ℚ :=
  let scores : List ℚ :=
    [(importantFieldsPresent extractedData : ℚ) / 5] ++
    (match extractedData.lineItems with
     | some items => if items.length > 0 then [meanLineItemConfidence items] else []
     | none => []) ++
    (if numTruthy extractedData.confidenceScore then [numVal extractedData.confidenceScore]
     else [])
  (scores.foldl (· + ·) 0) / scores.length

/-- The base confidence of `updateInvoiceWithExtraction`
(processingService.js:202): `extractedData.confidenceScore ||
extractionService.calculateConfidenceScore(extractedData)`. -/
def baseConfidence (extractedData : Candidate) : ℚ :=
  if numTruthy extractedData.confidenceScore then numVal extractedData.confidenceScore
  else calculateConfidenceScore extractedData

/-- The confidence score persisted on the job record
(processingService.js:204): the base confidence adjusted by the
validation penalty. -/
def persistedConfidenceScore (extractedData : Candidate)
    (validationResult : ValidationResult) : ℚ :=
  adjustConfidenceScore (baseConfidence extractedData) validationResult

/-- Modelled from the spec (§4.3): the equal-weight average of the applicable
base components — (a) the fraction of the five important fields present,
(b) the mean per-line-item confidence when any line items exist, and
(c) the extractor-reported overall confidence when present.  This is the
value the spec says the validation penalty is applied to, written out
independently of the source for comparison with `baseConfidence`. -/
def specBaseConfidence (extractedData : Candidate) : ℚ :=
  let components : List ℚ :=
    [(importantFieldsPresent extractedData : ℚ) / 5] ++
    (match extractedData.lineItems with
     | some items => if items.length > 0 then [meanLineItemConfidence items] else []
     | none => []) ++
    (if numTruthy extractedData.confidenceScore then [numVal extractedData.confidenceScore]
     else [])
  (components.foldl (· + ·) 0) / components.length

/-- The error taxonomy of the spec's `ExtractionError` (§4.1, §7).  The
source raises plain JS errors; the kind tag records which taxonomy class a
raised error falls in (`authFailure` = errors whose message or status code
matches the 401/auth sniff of `extractInvoiceData`'s catch block). -/
inductive ErrKind where
  | authFailure
  | rateLimited
  | transient
  | malformed
  deriving Repr, DecidableEq

/-- An extraction failure: taxonomy kind plus the JS error message. -/
structure ExtractionError where
  kind : ErrKind
  message : String
  deriving Repr, DecidableEq

/-- The trace of one `extractWithRetry` run: how many times
`extractionService.extractInvoiceData` was called, which backoff delays (ms)
were awaited, and the outcome (`.error none` is the degenerate
`retryAttempts = 0` case, where the loop never runs and `undefined` is
thrown). -/
structure RetryTrace where
  calls : ℕ
  delays : List ℕ
  result : Except (Option ExtractionError) Candidate
  deriving Repr

/-- The loop of `extractWithRetry` (processingService.js:143), as a recursion
over the remaining attempts: try the current attempt; on failure, if this was
not the last attempt, wait `retryDelayMs * attempt` and continue; the result
of exhausting all attempts is the last error. -/
def extractWithRetryGo (extract : ℕ → Except ExtractionError Candidate)
    (retryDelayMs : ℕ) (attempt : ℕ) : ℕ → RetryTrace
  | 0 => ⟨0, [], Except.error none⟩
  | remaining + 1 =>
    match extract attempt with
    | Except.ok c => ⟨1, [], Except.ok c⟩
    | Except.error e =>
      if remaining = 0 then ⟨1, [], Except.error (some e)⟩
      else
        let rest := extractWithRetryGo extract retryDelayMs (attempt + 1) remaining
        ⟨rest.calls + 1, retryDelayMs * attempt :: rest.delays, rest.result⟩

/-- `extractWithRetry` (processingService.js): attempts run from 1 up to
`retryAttempts`, with `extract n` the outcome of the `n`-th call to
`extractionService.extractInvoiceData`. -/
def extractWithRetry (extract : ℕ → Except ExtractionError Candidate)
    (retryDelayMs retryAttempts : ℕ) : RetryTrace :=
  extractWithRetryGo extract retryDelayMs 1 retryAttempts

/-- `config.processing.retryAttempts` (config): fixed at 3. -/
def retryAttemptsDefault : ℕ := 3

/-- `config.processing.retryDelayMs` (config): fixed at 1000. -/
def retryDelayMsDefault : ℕ := 1000

/-- The persisted job record, restricted to the fields the orchestrator's
failure and retry paths touch. -/
structure JobRecord where
  id : ℕ
  status : Status
  lastError : Option String
  retryCount : ℕ
  deriving Repr, DecidableEq

/-- The catch block of `processInvoice` (processingService.js:113): on a
processing failure the job becomes `failed`, the error message is recorded,
and the retry count is incremented. -/
def processInvoiceFailure (job : JobRecord) (errorMessage : String) : JobRecord :=
  { job with
    status := Status.failed
    lastError := some errorMessage
    retryCount := job.retryCount + 1 }

/-- The orchestrator's shared mutable state: the FIFO queue of pending job
ids and the in-flight counter (`processingQueue` / `activeProcessing`). -/
structure QueueState where
  queue : List ℕ
  active : ℕ
  deriving Repr, DecidableEq

/-- The `while` loop of `processQueue` (processingService.js:32): admit jobs
from the queue head while the in-flight counter is below `maxConcurrent`
(each admission increments the counter synchronously at the top of
`processInvoice`).  Returns the drained state and the admitted ids in order. -/
def processQueueGo (maxConcurrent : ℕ) : List ℕ → ℕ → QueueState × List ℕ
  | [], active => (⟨[], active⟩, [])
  | id :: rest, active =>
    if active < maxConcurrent then
      let next := processQueueGo maxConcurrent rest (active + 1)
      (next.1, id :: next.2)
    else (⟨id :: rest, active⟩, [])

/-- `processQueue` (processingService.js): drain the queue subject to the
concurrency limit. -/
def processQueue (maxConcurrent : ℕ) (s : QueueState) : QueueState × List ℕ :=
  processQueueGo maxConcurrent s.queue s.active

/-- `queueInvoice` (processingService.js:19): push the job id onto the queue,
then run the admission loop. -/
def queueInvoice (maxConcurrent : ℕ) (id : ℕ) (s : QueueState) : QueueState × List ℕ :=
  processQueue maxConcurrent ⟨s.queue ++ [id], s.active⟩

/-- The `finally` block of `processInvoice` (processingService.js:131): a
completing job (success or failure) decrements the in-flight counter and
immediately re-runs the admission loop. -/
def completeJob (maxConcurrent : ℕ) (s : QueueState) : QueueState × List ℕ :=
  processQueue maxConcurrent ⟨s.queue, s.active - 1⟩

/-- An externally observable orchestrator event: a submission or the
completion of an in-flight job. -/
inductive QueueOp where
  | enqueue (id : ℕ)
  | complete
  deriving Repr, DecidableEq

/-- Apply one orchestrator event to the shared state. -/
def applyOp (maxConcurrent : ℕ) (s : QueueState) : QueueOp → QueueState
  | QueueOp.enqueue id => (queueInvoice maxConcurrent id s).1
  | QueueOp.complete => (completeJob maxConcurrent s).1

/-- Run a sequence of orchestrator events from a starting state. -/
def runOps (maxConcurrent : ℕ) (s : QueueState) : List QueueOp → QueueState
  | [] => s
  | op :: rest => runOps maxConcurrent (applyOp maxConcurrent s op) rest

/-- The initial orchestrator state (constructor of `ProcessingService`). -/
def initialQueueState : QueueState := ⟨[], 0⟩

/-- `retryInvoice` (processingService.js:265): only a `failed` job may be
retried; a retried job is reset to `pending` with its last error cleared
(its retry count is not touched here) and re-enqueued via `queueInvoice`.
`none` models a job id with no record (`Invoice.findByPk` returning null). -/
def retryInvoice (maxConcurrent : ℕ) (job : Option JobRecord) (s : QueueState) :
    Except String (JobRecord × QueueState) :=
  match job with
  | none => Except.error "Invoice not found"
  | some invoice =>
    if invoice.status ≠ Status.failed then
      Except.error "Can only retry failed invoices"
    else
      let reset := { invoice with status := Status.pending, lastError := none }
      Except.ok (reset, (queueInvoice maxConcurrent reset.id s).1)

/-- The vendor pool of `generateMockInvoiceData` (extractionService.js). -/
def mockVendors : List String :=
  ["ABC Technologies", "XYZ Services", "Global Solutions Inc", "Tech Innovations"]

/-- The customer pool of `generateMockInvoiceData`. -/
def mockCustomers : List String := ["Acme Corp", "Beta Industries", "Gamma Enterprises"]

/-- The `Math.random()` draws consumed by one run of
`generateMockInvoiceData`, in source order; each is a value in `[0, 1)`. -/
structure MockRand where
  uVendor : ℚ
  uCustomer : ℚ
  uSub : ℚ
  uInv : ℚ
  uQ1 : ℚ
  uP1 : ℚ
  uQ2 : ℚ
  uConf1 : ℚ
  uConf2 : ℚ
  uScore : ℚ
  deriving Repr, DecidableEq

/-- JS `vendor.toLowerCase().replace(/\s+/g, '')`. -/
def stripSpacesLower (s : String) : String :=
  String.mk (s.toLower.toList.filter fun c => !c.isWhitespace)

/-- `generateMockInvoiceData` (extractionService.js:69): the synthetic
fallback candidate, as a function of the random draws and the current time.
`toFixed(2)`/`parseFloat` round-trips are `round2`; `Math.floor(r*n + k)`
is `⌊r*n + k⌋`.  Fields the validation engine and confidence scorer never
read (addresses, phone, PO number, payment data) are omitted. -/
def generateMockInvoiceData (now : ℤ) (r : MockRand) : Candidate :=
  let vendor := mockVendors.getD (Int.toNat ⌊r.uVendor * mockVendors.length⌋) ""
  let subtotal := round2 (r.uSub * 50000 + 5000)
  let taxRate : ℚ := 18
  let taxAmount := round2 (subtotal * taxRate / 100)
  let totalAmount := round2 (subtotal + taxAmount)
  let item1Qty : ℤ := ⌊r.uQ1 * 10 + 1⌋
  let item1Price := round2 (r.uP1 * 2000 + 500)
  let item1Amount := round2 (item1Qty * item1Price)
  let item2Qty : ℤ := ⌊r.uQ2 * 5 + 1⌋
  let item2Price := round2 ((subtotal - item1Amount) / item2Qty)
  let item2Amount := round2 (item2Qty * item2Price)
  { vendorName := some vendor
    vendorEmail := some ("contact@" ++ stripSpacesLower vendor ++ ".com")
    invoiceNumber := some ("INV-" ++ toString ⌊r.uInv * 900000 + 100000⌋)
    invoiceDate := some (some now)
    dueDate := some (some (now + 30 * 24 * 60 * 60 * 1000))
    lineItems := some
      [ { quantity := some (item1Qty : ℚ)
          unitPrice := some item1Price
          amount := some item1Amount
          confidence := some (9/10 + r.uConf1 * (1/10)) },
        { quantity := some (item2Qty : ℚ)
          unitPrice := some item2Price
          amount := some item2Amount
          confidence := some (9/10 + r.uConf2 * (1/10)) } ]
    subtotal := some subtotal
    taxRate := some taxRate
    taxAmount := some taxAmount
    discountAmount := some 0
    shippingAmount := some 0
    totalAmount := some totalAmount
    currency := some "INR"
    confidenceScore := some (17/20 + r.uScore * (1/10)) }

/-- The draws of `generateMockInvoiceData` are each in `[0, 1)`. -/
def MockRand.InRange (r : MockRand) : Prop :=
  0 ≤ r.uVendor ∧ r.uVendor < 1 ∧ 0 ≤ r.uCustomer ∧ r.uCustomer < 1 ∧
  0 ≤ r.uSub ∧ r.uSub < 1 ∧ 0 ≤ r.uInv ∧ r.uInv < 1 ∧
  0 ≤ r.uQ1 ∧ r.uQ1 < 1 ∧ 0 ≤ r.uP1 ∧ r.uP1 < 1 ∧
  0 ≤ r.uQ2 ∧ r.uQ2 < 1 ∧ 0 ≤ r.uConf1 ∧ r.uConf1 < 1 ∧
  0 ≤ r.uConf2 ∧ r.uConf2 < 1 ∧ 0 ≤ r.uScore ∧ r.uScore < 1

/-- Sum of the line-item amounts of a candidate (`0` when absent). -/
def sumLineItemAmounts (invoice : Candidate) : ℚ :=
  calculatedSubtotal ((invoice.lineItems).getD [])

/-- The shape shared by every candidate `generateMockInvoiceData` returns,
with the derived numeric components as parameters: two line items whose
amounts are exactly quantity × unit price, a fixed 18% tax rate, zero
discount and shipping, total = subtotal + tax, and currency INR.
`generateMock_eq_shape` below shows the generator factors through this. -/
def mockShape (now : ℤ) (vendor email invNum : String) (q1 q2 : ℤ)
    (p1 p2 c1 c2 S T cAll : ℚ) : Candidate :=
  { vendorName := some vendor
    vendorEmail := some email
    invoiceNumber := some invNum
    invoiceDate := some (some now)
    dueDate := some (some (now + 30 * 24 * 60 * 60 * 1000))
    lineItems := some
      [{ quantity := some (q1:ℚ), unitPrice := some p1,
         amount := some ((q1:ℚ) * p1), confidence := some c1 },
       { quantity := some (q2:ℚ), unitPrice := some p2,
         amount := some ((q2:ℚ) * p2), confidence := some c2 }]
    subtotal := some S
    taxRate := some 18
    taxAmount := some T
    discountAmount := some 0
    shippingAmount := some 0
    totalAmount := some (S + T)
    currency := some "INR"
    confidenceScore := some cAll }

/-- A candidate with no validation errors and exactly three warnings
(unusual currency, round-number total, high total without tax info). -/
def candThreeWarnings : Candidate :=
  { vendorName := some "Acme Corp"
    vendorEmail := none
    invoiceNumber := some "12345"
    invoiceDate := some (some 0)
    dueDate := none
    lineItems := none
    subtotal := none
    taxRate := none
    taxAmount := none
    discountAmount := none
    shippingAmount := none
    totalAmount := some 2000
    currency := some "ZZZ"
    confidenceScore := none }

/-- As `candThreeWarnings` but with a valid currency: no errors, exactly two
warnings. -/
def candTwoWarnings : Candidate := { candThreeWarnings with currency := some "USD" }

/-- A candidate whose only line item has `quantity = 0` yet
`|amount - quantity × unitPrice| = 25 > 0.01`. -/
def candZeroQty : Candidate :=
  { vendorName := some "Acme Corp"
    vendorEmail := none
    invoiceNumber := some "77"
    invoiceDate := some (some 0)
    dueDate := none
    lineItems := some
      [{ quantity := some 0, unitPrice := some 10, amount := some 25, confidence := none }]
    subtotal := none
    taxRate := none
    taxAmount := none
    discountAmount := none
    shippingAmount := none
    totalAmount := some 25
    currency := some "USD"
    confidenceScore := none }

/-- A candidate with `lineItems = [{qty 2, price 10, amount 25}]`: a genuine
line-item arithmetic mismatch. -/
def candMismatch : Candidate :=
  { candZeroQty with
    invoiceNumber := some "88"
    lineItems := some
      [{ quantity := some 2, unitPrice := some 10, amount := some 25, confidence := none }]
    totalAmount := some 25 }

/-- A candidate where all five important fields are present, the single line
item has confidence `1`, and the extractor reports an overall confidence of
`0.5`. -/
def candReported : Candidate :=
  { vendorName := some "V"
    vendorEmail := none
    invoiceNumber := some "1"
    invoiceDate := some (some 0)
    dueDate := none
    lineItems := some
      [{ quantity := some 1, unitPrice := some 10, amount := some 10, confidence := some 1 }]
    subtotal := none
    taxRate := none
    taxAmount := none
    discountAmount := none
    shippingAmount := none
    totalAmount := some 10
    currency := some "USD"
    confidenceScore := some (1/2) }

/-- As `candReported` but with no extractor-reported overall confidence. -/
def candNoReported : Candidate := { candReported with confidenceScore := none }

/-- A concrete draw vector for `generateMockInvoiceData`: subtotal lands on
5000.00, the first line item on 1 × 500.01, and the second on 3 units —
4499.99 / 3 rounds to 1500.00, so the amounts sum to 5000.01. -/
def mockDrawExample : MockRand :=
  { uVendor := 0, uCustomer := 0, uSub := 0, uInv := 0, uQ1 := 0,
    uP1 := 1/200000, uQ2 := 1/2, uConf1 := 0, uConf2 := 0, uScore := 0 }

/-- A failed job record with one prior retry. -/
def jobFailedExample : JobRecord :=
  { id := 7, status := Status.failed, lastError := some "Extraction failed", retryCount := 1 }

/-- A completed job record. -/
def jobCompletedExample : JobRecord :=
  { id := 8, status := Status.completed, lastError := none, retryCount := 0 }

/-- A validation result carrying five errors and no warnings. -/
def vrFiveErrors : ValidationResult :=
  { isValid := false
    errors := ["e1", "e2", "e3", "e4", "e5"]
    warnings := []
    requiresManualReview := true }

/-!
## Theorems

One theorem per claim (C1–C10), preceded by shared helper lemmas.
-/

/-- C1 counterexample: a candidate whose validation yields zero errors and
three warnings.  The spec claims the final persisted status is
`review_required` when `warnings.length > 2`; the orchestrator
(processingService.js:82) consults only the error count, so the job ends
`completed`. -/
theorem C1_warnings_ignored_counterexample :
    (validateInvoice 0 candThreeWarnings).errors = [] ∧
    (validateInvoice 0 candThreeWarnings).warnings.length = 3 ∧
    processSuccessStatus 0 candThreeWarnings = Status.completed ∧
    processSuccessStatus 0 candThreeWarnings ≠ Status.review_required := by
  refine ⟨by decide, by decide, by decide, by decide⟩

/-- C1 (amended): for every job whose extraction succeeds, the final
persisted status is `review_required` exactly when validation produced at
least one error — the warning count is not consulted — and otherwise
`completed`; in particular a job with zero errors and three warnings ends
`completed` (even though its stored `requiresManualReview` flag is true). -/
theorem C1_final_status_from_errors_only :
    (∀ (now : ℤ) (extracted : Candidate),
      processSuccessStatus now extracted = Status.review_required ↔
        (validateInvoice now extracted).errors ≠ []) ∧
    processSuccessStatus 0 candThreeWarnings = Status.completed ∧
    (validateInvoice 0 candThreeWarnings).requiresManualReview = true := by
  refine ⟨fun now extracted => ?_, by decide, by decide⟩
  unfold processSuccessStatus processInvoiceFinalStatus
  rcases h : (validateInvoice now extracted).errors with _ | ⟨e, es⟩ <;> simp [h]

/-- C2: the `requiresManualReview` flag returned by the validation engine is
true iff the error list is nonempty or more than two warnings accumulated;
at the boundary, zero errors with exactly two warnings gives `false` and
zero errors with three warnings gives `true`. -/
theorem C2_requiresReview_iff :
    (∀ (now : ℤ) (candidate : Candidate),
      (validateInvoice now candidate).requiresManualReview = true ↔
        ((validateInvoice now candidate).errors ≠ [] ∨
          2 < (validateInvoice now candidate).warnings.length)) ∧
    (validateInvoice 0 candTwoWarnings).errors = [] ∧
    (validateInvoice 0 candTwoWarnings).warnings.length = 2 ∧
    (validateInvoice 0 candTwoWarnings).requiresManualReview = false ∧
    (validateInvoice 0 candThreeWarnings).errors = [] ∧
    (validateInvoice 0 candThreeWarnings).warnings.length = 3 ∧
    (validateInvoice 0 candThreeWarnings).requiresManualReview = true := by
  refine ⟨fun now candidate => ?_, by decide, by decide, by decide, by decide, by decide,
    by decide⟩
  have h : (validateInvoice now candidate).requiresManualReview
      = (decide (0 < (validateInvoice now candidate).errors.length) ||
         decide (2 < (validateInvoice now candidate).warnings.length)) := rfl
  rw [h]
  simp [List.length_pos]

/-- C6: the adjusted confidence equals
`max 0 (min 1 (base − 0.1·E − 0.02·W))`, hence always lies in `[0, 1]`;
with base `0.5` and five errors the score clamps to `0` instead of going
negative. -/
theorem C6_confidence_clamped (base : ℚ) (vr : ValidationResult) :
    adjustConfidenceScore base vr =
      max 0 (min 1 (base - (vr.errors.length : ℚ) * (1/10) -
        (vr.warnings.length : ℚ) * (1/50))) ∧
    0 ≤ adjustConfidenceScore base vr ∧
    adjustConfidenceScore base vr ≤ 1 ∧
    adjustConfidenceScore (1/2) vrFiveErrors = 0 := by
  refine ⟨?_, le_max_left _ _, max_le (by norm_num) (min_le_left _ _),
    by norm_num [adjustConfidenceScore, vrFiveErrors]⟩
  simp only [adjustConfidenceScore]
  ring_nf

/-- C8 counterexample: a line item with `quantity = 0`, `unitPrice = 10`,
`amount = 25` has `|amount − quantity × unitPrice| = 25 > 0.01`, yet
validation emits no error at all: the arithmetic check is skipped whenever
quantity, unit price, or amount is zero or missing. -/
theorem C8_zero_quantity_skipped_counterexample :
    (validateInvoice 0 candZeroQty).errors = [] ∧
    ∃ item : LineItem, candZeroQty.lineItems = some [item] ∧
      |numVal item.amount - numVal item.quantity * numVal item.unitPrice| > 1/100 := by
  refine ⟨?_, ⟨_, rfl, by norm_num [numVal]⟩⟩
  norm_num [validateInvoice, validateRequiredFields, validateCalculations, lineItemChecks,
    calculatedSubtotal, validateFormats, validateBusinessRules, detectAnomalies,
    isMultipleOf100, numTruthy, strTruthy, jsLe, jsLt, jsGt, numVal, round2,
    validCurrencies, allZeros, candZeroQty]
  all_goals decide

/-- C5 counterexample: when the extractor reports an overall confidence
(here `0.5`), the base confidence the penalty is applied to is that reported
value alone, not the equal-weight average of the components (here `5/6`):
`extractedData.confidenceScore || calculateConfidenceScore(extractedData)`
short-circuits. -/
theorem C5_reported_confidence_shortcircuits_counterexample :
    baseConfidence candReported ≠ specBaseConfidence candReported ∧
    baseConfidence candReported = 1/2 ∧
    specBaseConfidence candReported = 5/6 ∧
    persistedConfidenceScore candReported (validateInvoice 0 candReported) = 1/2 ∧
    adjustConfidenceScore (specBaseConfidence candReported)
      (validateInvoice 0 candReported) = 5/6 := by
  have hbase : baseConfidence candReported = 1/2 := by
    norm_num [baseConfidence, numTruthy, numVal, candReported]
  have hspec : specBaseConfidence candReported = 5/6 := by
    norm_num [specBaseConfidence, importantFieldsPresent, meanLineItemConfidence,
      numTruthy, numVal, strTruthy, candReported,
      (show ("V" : String) ≠ "" by decide), (show ("1" : String) ≠ "" by decide)]
  have hvr : (validateInvoice 0 candReported).errors = [] ∧
      (validateInvoice 0 candReported).warnings = [] := by
    refine ⟨?_, ?_⟩ <;>
    · norm_num [validateInvoice, validateRequiredFields, validateCalculations, lineItemChecks,
        calculatedSubtotal, validateFormats, validateBusinessRules, detectAnomalies,
        isMultipleOf100, numTruthy, strTruthy, jsLe, jsLt, jsGt, numVal, round2,
        validCurrencies, allZeros, candReported]
      all_goals decide
  refine ⟨?_, hbase, hspec, ?_, ?_⟩
  · rw [hbase, hspec]; norm_num
  · rw [persistedConfidenceScore, hbase, adjustConfidenceScore, hvr.1, hvr.2]
    norm_num
  · rw [adjustConfidenceScore, hspec, hvr.1, hvr.2]
    norm_num

/-- C5 (amended): the base confidence to which the validation penalty is
applied equals the equal-weight average of the applicable components only
when the extractor reports no (nonzero) overall confidence; when a nonzero
overall confidence is reported, the base is that reported value alone. -/
theorem C5_base_confidence_amended :
    (∀ candidate : Candidate, numTruthy candidate.confidenceScore = false →
        baseConfidence candidate = specBaseConfidence candidate) ∧
    (∀ (candidate : Candidate) (c : ℚ), candidate.confidenceScore = some c → c ≠ 0 →
        baseConfidence candidate = c) := by
  constructor
  · intro cand h
    unfold baseConfidence specBaseConfidence calculateConfidenceScore
    rw [h]
    simp
  · intro cand c hc hne
    have ht : numTruthy cand.confidenceScore = true := by
      rw [hc]; simpa [numTruthy] using hne
    unfold baseConfidence
    rw [ht]
    simp [numVal, hc]

/-- Witness for C5 (amended) at concrete inputs: with no reported confidence
the base is the component average; with reported confidence `0.5` the base
is `0.5`. -/
theorem C5_base_confidence_amended_witness :
    numTruthy candNoReported.confidenceScore = false ∧
    baseConfidence candNoReported = specBaseConfidence candNoReported ∧
    candReported.confidenceScore = some (1/2) ∧ ((1:ℚ)/2) ≠ 0 ∧
    baseConfidence candReported = 1/2 :=
  ⟨by decide, C5_base_confidence_amended.1 candNoReported (by decide),
   rfl, by norm_num, C5_base_confidence_amended.2 candReported (1/2) rfl (by norm_num)⟩

/-- One failing attempt with none following: one call, no delay, the error
is surfaced. -/
theorem extractWithRetryGo_error_one (extract : ℕ → Except ExtractionError Candidate)
    (d a : ℕ) (e : ExtractionError) (hext : extract a = Except.error e) :
    extractWithRetryGo extract d a 1 = ⟨1, [], Except.error (some e)⟩ := by
  simp [extractWithRetryGo, hext]

/-- A failing attempt with at least one attempt left: the backoff delay
`d * a` is awaited and the loop continues. -/
theorem extractWithRetryGo_error_step (extract : ℕ → Except ExtractionError Candidate)
    (d a m : ℕ) (e : ExtractionError) (hext : extract a = Except.error e) :
    extractWithRetryGo extract d a (m + 2) =
      ⟨(extractWithRetryGo extract d (a + 1) (m + 1)).calls + 1,
       d * a :: (extractWithRetryGo extract d (a + 1) (m + 1)).delays,
       (extractWithRetryGo extract d (a + 1) (m + 1)).result⟩ := by
  simp [extractWithRetryGo, hext]

/-- With an extractor failing on every attempt, the attempt loop makes
exactly `remaining` calls, waits `d × attempt` after every failed attempt
but the last, and surfaces the last attempt's error. -/
theorem extractWithRetryGo_allFail (err : ℕ → ExtractionError) (d : ℕ) :
    ∀ (remaining attempt : ℕ), 1 ≤ remaining →
      extractWithRetryGo (fun n => Except.error (err n)) d attempt remaining =
        ⟨remaining, (List.range (remaining - 1)).map (fun j => d * (attempt + j)),
          Except.error (some (err (attempt + remaining - 1)))⟩ := by
  intro remaining
  induction remaining with
  | zero => intro attempt h; omega
  | succ k ih =>
    intro attempt _
    rcases k with _ | m
    · simpa using extractWithRetryGo_error_one _ d attempt (err attempt) rfl
    · have hrec := ih (attempt + 1) (by omega)
      rw [extractWithRetryGo_error_step _ d attempt m (err attempt) rfl, hrec]
      simp only [RetryTrace.mk.injEq]
      refine ⟨trivial, ?_, ?_⟩
      · simp only [Nat.add_sub_cancel]
        rw [List.range_succ_eq_map, List.map_cons, List.map_map]
        simp only [Function.comp, Nat.add_zero]
        congr 1
        exact List.map_congr_left fun j hj => by
          simp only [Function.comp_apply, Nat.succ_eq_add_one]
          ring
      · have harg : attempt + 1 + (m + 1) - 1 = attempt + (m + 1 + 1) - 1 := by omega
        rw [harg]

/-- C3: with an extractor failing on every attempt, the orchestrator makes
exactly `retryAttempts` (default 3) extraction calls, waits
`attempt × retryDelayMs` after every failed attempt except the last, and
the job then becomes `failed` with the last error's message recorded and
the retry count incremented. -/
theorem C3_retry_exhaustion_transitions_to_failed (err : ℕ → ExtractionError)
    (d n : ℕ) (job : JobRecord) (h : 1 ≤ n) :
    (extractWithRetry (fun k => Except.error (err k)) d n).calls = n ∧
    (extractWithRetry (fun k => Except.error (err k)) d n).delays =
      (List.range (n - 1)).map (fun j => d * (1 + j)) ∧
    (extractWithRetry (fun k => Except.error (err k)) d n).result =
      Except.error (some (err n)) ∧
    retryAttemptsDefault = 3 ∧
    processInvoiceFailure job (err n).message =
      { job with status := Status.failed,
                 lastError := some (err n).message,
                 retryCount := job.retryCount + 1 } := by
  have hall := extractWithRetryGo_allFail err d n 1 h
  unfold extractWithRetry
  rw [hall]
  have harg : 1 + n - 1 = n := by omega
  rw [harg]
  exact ⟨rfl, rfl, rfl, rfl, rfl⟩

/-- Witness for C3: with the default budget of 3 attempts and base delay
1000 ms, an always-failing extractor is called 3 times with backoff delays
1000 and 2000 ms, and the job fails with its retry count bumped from 1
to 2. -/
theorem C3_retry_exhaustion_transitions_to_failed_witness :
    (1:ℕ) ≤ 3 ∧
    (extractWithRetry (fun _ => Except.error ⟨ErrKind.transient, "fail"⟩) 1000 3).calls = 3 ∧
    (extractWithRetry (fun _ => Except.error ⟨ErrKind.transient, "fail"⟩) 1000 3).delays =
      [1000, 2000] ∧
    (extractWithRetry (fun _ => Except.error ⟨ErrKind.transient, "fail"⟩) 1000 3).result =
      Except.error (some ⟨ErrKind.transient, "fail"⟩) ∧
    processInvoiceFailure jobFailedExample "fail" =
      { id := 7, status := Status.failed, lastError := some "fail", retryCount := 2 } := by
  have h := C3_retry_exhaustion_transitions_to_failed
    (fun _ => ⟨ErrKind.transient, "fail"⟩) 1000 3 jobFailedExample (by norm_num)
  refine ⟨by norm_num, h.1, ?_, h.2.2.1, ?_⟩
  · rw [h.2.1]; decide
  · rw [h.2.2.2.2]; decide

/-- C4 counterexample: an extractor whose every attempt raises a malformed
output error is called 3 times, not once — the attempt loop does not
terminate early on malformed output. -/
theorem C4_malformed_retried_counterexample :
    (extractWithRetry (fun _ => Except.error ⟨ErrKind.malformed, "Unexpected token in JSON"⟩)
      1000 3).calls = 3 ∧
    (extractWithRetry (fun _ => Except.error ⟨ErrKind.malformed, "Unexpected token in JSON"⟩)
      1000 3).calls ≠ 1 := by
  have h := extractWithRetryGo_allFail
    (fun _ => ⟨ErrKind.malformed, "Unexpected token in JSON"⟩) 1000 3 1 (by norm_num)
  unfold extractWithRetry
  rw [h]
  exact ⟨rfl, by norm_num⟩

/-- C4 (amended): a malformed extraction error is retried exactly like a
Transient or RateLimited one — the attempt loop treats every raised error
uniformly, exhausting the full attempt budget before the job surfaces as
`failed` with that error. -/
theorem C4_malformed_retried_like_any_error (e : ExtractionError) (d n : ℕ)
    (job : JobRecord) (h : 1 ≤ n) :
    (extractWithRetry (fun _ => Except.error e) d n).calls = n ∧
    (extractWithRetry (fun _ => Except.error e) d n).result = Except.error (some e) ∧
    (processInvoiceFailure job e.message).status = Status.failed := by
  have hall := extractWithRetryGo_allFail (fun _ => e) d n 1 h
  unfold extractWithRetry
  rw [hall]
  exact ⟨rfl, rfl, rfl⟩

/-- Witness for C4 (amended) at a concrete malformed error. -/
theorem C4_malformed_retried_like_any_error_witness :
    (1:ℕ) ≤ 3 ∧
    (extractWithRetry (fun _ => Except.error ⟨ErrKind.malformed, "Unexpected end of JSON input"⟩)
      500 3).calls = 3 ∧
    (extractWithRetry (fun _ => Except.error ⟨ErrKind.malformed, "Unexpected end of JSON input"⟩)
      500 3).result =
      Except.error (some ⟨ErrKind.malformed, "Unexpected end of JSON input"⟩) ∧
    (processInvoiceFailure jobCompletedExample "Unexpected end of JSON input").status =
      Status.failed :=
  ⟨by norm_num,
   C4_malformed_retried_like_any_error ⟨ErrKind.malformed, "Unexpected end of JSON input"⟩
     500 3 jobCompletedExample (by norm_num)⟩

/-- C8 (amended): for every line item whose quantity, unit price, and amount
are all present and nonzero, a cent-rounded mismatch
`|round2(qty × price) − round2(amount)| > 0.01` puts the calculation error
naming that item's index with the expected and actual amounts into the
validation errors; items with zero or missing quantity, unit price, or
amount are skipped by this check (see the counterexample). -/
theorem C8_line_item_mismatch_error_emitted (now : ℤ) (inv : Candidate)
    (items : List LineItem) (i : ℕ) (item : LineItem)
    (hli : inv.lineItems = some items) (hit : items[i]? = some item)
    (hq : numTruthy item.quantity = true) (hp : numTruthy item.unitPrice = true)
    (ha : numTruthy item.amount = true)
    (hmis : |round2 (numVal item.quantity * numVal item.unitPrice) -
        round2 (numVal item.amount)| > 1/100) :
    ("Line item " ++ toString (i + 1) ++ " calculation error: " ++
        toString (numVal item.quantity) ++ " × " ++ toString (numVal item.unitPrice) ++
        " = " ++ toString (round2 (numVal item.quantity * numVal item.unitPrice)) ++
        ", but got " ++ toString (round2 (numVal item.amount)))
      ∈ (validateInvoice now inv).errors := by
  set M : String := "Line item " ++ toString (i + 1) ++ " calculation error: " ++
    toString (numVal item.quantity) ++ " × " ++ toString (numVal item.unitPrice) ++
    " = " ++ toString (round2 (numVal item.quantity * numVal item.unitPrice)) ++
    ", but got " ++ toString (round2 (numVal item.amount)) with hM
  have hchk : (lineItemChecks i item).1 = [M] := by
    rw [hM]
    simp only [lineItemChecks, hq, hp, ha, Bool.and_self, Bool.and_true, Bool.true_and,
      if_true]
    rw [if_pos hmis]
  have henum : (i, item) ∈ items.enum := List.mk_mem_enum_iff_getElem?.mpr hit
  have hmem1 : M ∈ ((items.enum.map fun p => lineItemChecks p.1 p.2).map Prod.fst).flatten := by
    rw [List.mem_flatten]
    exact ⟨(lineItemChecks i item).1,
      List.mem_map_of_mem _ (List.mem_map_of_mem _ henum),
      by rw [hchk]; exact List.mem_singleton_self _⟩
  have hne : items.isEmpty = false := by
    rcases items with _ | ⟨x, xs⟩
    · simp at hit
    · rfl
  have hcalc : M ∈ (validateCalculations inv).1 := by
    simp only [validateCalculations, hli, hne, Bool.false_eq_true, if_false]
    exact List.mem_append_left _ (List.mem_append_left _ hmem1)
  have herr : (validateInvoice now inv).errors =
      validateRequiredFields inv ++ (validateCalculations inv).1 ++
      (validateFormats now inv).1 ++ (validateBusinessRules inv).1 := rfl
  rw [herr]
  exact List.mem_append_left _ (List.mem_append_left _ (List.mem_append_right _ hcalc))

/-- Witness for C8 (amended): the spec's own scenario
`lineItems = [{qty 2, price 10, amount 25}]` produces the line-item-1
calculation error. -/
theorem C8_line_item_mismatch_error_emitted_witness :
    ("Line item " ++ toString (0 + 1) ++ " calculation error: " ++
        toString (numVal (some (2:ℚ))) ++ " × " ++ toString (numVal (some (10:ℚ))) ++
        " = " ++ toString (round2 (numVal (some (2:ℚ)) * numVal (some (10:ℚ)))) ++
        ", but got " ++ toString (round2 (numVal (some (25:ℚ)))))
      ∈ (validateInvoice 0 candMismatch).errors :=
  C8_line_item_mismatch_error_emitted 0 candMismatch
    [{ quantity := some 2, unitPrice := some 10, amount := some 25, confidence := none }] 0
    { quantity := some 2, unitPrice := some 10, amount := some 25, confidence := none }
    rfl rfl (by decide) (by decide) (by decide) (by norm_num [numVal, round2])

/-- The admission loop in closed form: it admits exactly
`min (maxConcurrent − active) queue.length` jobs, taken from the head of the
queue in order, and increments the in-flight counter by that number. -/
theorem processQueueGo_spec (maxConcurrent : ℕ) :
    ∀ (q : List ℕ) (a : ℕ),
      processQueueGo maxConcurrent q a =
        (⟨q.drop (min (maxConcurrent - a) q.length),
          a + min (maxConcurrent - a) q.length⟩,
         q.take (min (maxConcurrent - a) q.length)) := by
  intro q
  induction q with
  | nil => intro a; simp [processQueueGo]
  | cons id rest ih =>
    intro a
    by_cases h : a < maxConcurrent
    · have hmin : min (maxConcurrent - a) (id :: rest).length
          = min (maxConcurrent - (a + 1)) rest.length + 1 := by
        simp only [List.length_cons]; omega
      simp only [processQueueGo, if_pos h, ih (a + 1), hmin,
        List.drop_succ_cons, List.take_succ_cons]
      refine congrArg₂ _ ?_ rfl
      refine congrArg₂ _ rfl ?_
      omega
    · have hz : maxConcurrent - a = 0 := by omega
      simp [processQueueGo, if_neg h, hz]

/-- The in-flight counter never exceeds the concurrency limit: the bound is
preserved by every submission and every job completion. -/
theorem runOps_active_le (maxConcurrent : ℕ) :
    ∀ (ops : List QueueOp) (s : QueueState), s.active ≤ maxConcurrent →
      (runOps maxConcurrent s ops).active ≤ maxConcurrent := by
  have hq : ∀ (s : QueueState), s.active ≤ maxConcurrent →
      (processQueue maxConcurrent s).1.active ≤ maxConcurrent := by
    intro s hs
    unfold processQueue
    rw [processQueueGo_spec]
    simp only []
    have := Nat.min_le_left (maxConcurrent - s.active) s.queue.length
    omega
  intro ops
  induction ops with
  | nil => intro s hs; exact hs
  | cons op rest ih =>
    intro s hs
    rcases op with id | _
    · exact ih _ (hq ⟨s.queue ++ [id], s.active⟩ hs)
    · exact ih _ (hq ⟨s.queue, s.active - 1⟩ (le_trans (Nat.sub_le s.active 1) hs))

/-- C9: at every state reachable by submissions and completions the number
of in-flight jobs never exceeds `maxConcurrent`; the admission loop takes
jobs from the queue head in FIFO order while below the limit; and with
`maxConcurrent = 2` and five submitted jobs exactly two are in processing
(queue `[3,4,5]`), and completing one admits exactly job 3, keeping two in
flight. -/
theorem C9_concurrency_bound_and_fifo :
    (∀ (maxConcurrent : ℕ) (ops : List QueueOp),
      (runOps maxConcurrent initialQueueState ops).active ≤ maxConcurrent) ∧
    (∀ (maxConcurrent : ℕ) (s : QueueState),
      processQueue maxConcurrent s =
        (⟨s.queue.drop (min (maxConcurrent - s.active) s.queue.length),
          s.active + min (maxConcurrent - s.active) s.queue.length⟩,
         s.queue.take (min (maxConcurrent - s.active) s.queue.length))) ∧
    (runOps 2 initialQueueState
      [QueueOp.enqueue 1, QueueOp.enqueue 2, QueueOp.enqueue 3,
       QueueOp.enqueue 4, QueueOp.enqueue 5]) = ⟨[3, 4, 5], 2⟩ ∧
    completeJob 2 ⟨[3, 4, 5], 2⟩ = (⟨[4, 5], 2⟩, [3]) := by
  refine ⟨fun m ops => runOps_active_le m ops initialQueueState (Nat.zero_le m),
    fun m s => processQueueGo_spec m s.queue s.active, by decide, by decide⟩

/-- C10 counterexample: manually retrying the failed job with
`retryCount = 1` yields a pending job whose retry count is still 1, not 2 —
`retryInvoice` resets status and clears the last error but does not
increment the retry count. -/
theorem C10_retryCount_unchanged_counterexample :
    retryInvoice 10 (some jobFailedExample) initialQueueState =
      Except.ok ({ id := 7, status := Status.pending, lastError := none, retryCount := 1 },
        ⟨[], 1⟩) ∧
    jobFailedExample.retryCount = 1 ∧
    (1 : ℕ) ≠ jobFailedExample.retryCount + 1 := by
  refine ⟨by rfl, rfl, by decide⟩

/-- C10 (amended): manually retrying a `failed` job resets it to `pending`,
clears its last error, re-enters its id into the processing queue (either
admitted at once or still queued), and leaves its retry count unchanged —
the count is incremented only when a later processing attempt fails;
retrying a job in any other status is rejected with an error, leaving the
record untouched. -/
theorem C10_manual_retry_amended (maxConcurrent : ℕ) (inv : JobRecord) (s : QueueState) :
    (inv.status = Status.failed →
      retryInvoice maxConcurrent (some inv) s =
        Except.ok ({ inv with status := Status.pending, lastError := none },
          (queueInvoice maxConcurrent inv.id s).1) ∧
      ({ inv with status := Status.pending, lastError := none } : JobRecord).retryCount
        = inv.retryCount ∧
      inv.id ∈ (queueInvoice maxConcurrent inv.id s).1.queue ++
        (queueInvoice maxConcurrent inv.id s).2) ∧
    (inv.status ≠ Status.failed →
      retryInvoice maxConcurrent (some inv) s =
        Except.error "Can only retry failed invoices") := by
  constructor
  · intro hf
    refine ⟨by simp [retryInvoice, hf], rfl, ?_⟩
    have hspec := processQueueGo_spec maxConcurrent (s.queue ++ [inv.id]) s.active
    unfold queueInvoice processQueue
    rw [hspec]
    simp only []
    rw [List.mem_append]
    have hQ : inv.id ∈ s.queue ++ [inv.id] :=
      List.mem_append_right _ (List.mem_singleton_self _)
    rw [← List.take_append_drop
      (min (maxConcurrent - s.active) (s.queue ++ [inv.id]).length)
      (s.queue ++ [inv.id])] at hQ
    exact (List.mem_append.mp hQ).symm
  · intro hnf
    simp [retryInvoice, hnf]

/-- Witness for C10 (amended): the failed example job is reset and
re-enqueued; the completed example job is rejected. -/
theorem C10_manual_retry_amended_witness :
    jobFailedExample.status = Status.failed ∧
    retryInvoice 10 (some jobFailedExample) initialQueueState =
      Except.ok ({ jobFailedExample with status := Status.pending, lastError := none },
        (queueInvoice 10 jobFailedExample.id initialQueueState).1) ∧
    jobCompletedExample.status ≠ Status.failed ∧
    retryInvoice 10 (some jobCompletedExample) initialQueueState =
      Except.error "Can only retry failed invoices" :=
  ⟨rfl, ((C10_manual_retry_amended 10 jobFailedExample initialQueueState).1 rfl).1,
   by decide, (C10_manual_retry_amended 10 jobCompletedExample initialQueueState).2 (by decide)⟩

/-- `round2` always produces a whole number of cents. -/
theorem round2_eq_cents (x : ℚ) : round2 x = (⌊x * 100 + 1/2⌋ : ℚ) / 100 := rfl

/-- A whole number of cents is a fixed point of `round2`. -/
theorem round2_eq_self_of_cents (m : ℤ) : round2 ((m : ℚ) / 100) = (m : ℚ) / 100 := by
  unfold round2
  have h1 : (m : ℚ) / 100 * 100 + 1/2 = (m : ℚ) + 1/2 := by field_simp
  rw [h1]
  have h2 : ⌊(m : ℚ) + 1/2⌋ = m + ⌊(1:ℚ)/2⌋ := Int.floor_int_add m (1/2)
  have h3 : ⌊(1:ℚ)/2⌋ = 0 := by norm_num [Int.floor_eq_iff]
  rw [h2, h3]
  norm_num

/-- Rounding to cents moves a value by at most half a cent. -/
theorem abs_round2_sub_le (x : ℚ) : |round2 x - x| ≤ 1/200 := by
  have h1 := Int.floor_le (x * 100 + 1/2)
  have h2 := Int.lt_floor_add_one (x * 100 + 1/2)
  unfold round2
  rw [abs_le]
  constructor <;> [linarith; linarith]

/-- `round2` is idempotent. -/
theorem round2_idem (x : ℚ) : round2 (round2 x) = round2 x :=
  round2_eq_self_of_cents ⌊x * 100 + 1/2⌋

/-- `Math.floor(random() * k + 1)` lies in `[1, k]`. -/
theorem floor_rand_bound (u : ℚ) (k : ℕ) (hk : 1 ≤ k) (h0 : 0 ≤ u) (h1 : u < 1) :
    1 ≤ ⌊u * k + 1⌋ ∧ ⌊u * k + 1⌋ ≤ k := by
  constructor
  · apply Int.le_floor.mpr
    push_cast
    nlinarith
  · have hkpos : (0:ℚ) < k := by exact_mod_cast hk
    have : ⌊u * k + 1⌋ < k + 1 := by
      apply Int.floor_lt.mpr
      push_cast
      nlinarith
    omega

/-- An integer multiple of a cent-rounded value is already cent-rounded. -/
theorem round2_int_mul (q : ℤ) (x : ℚ) :
    round2 ((q:ℚ) * round2 x) = (q:ℚ) * round2 x := by
  have h : (q:ℚ) * round2 x = ((q * ⌊x * 100 + 1/2⌋ : ℤ) : ℚ) / 100 := by
    rw [round2_eq_cents]; push_cast; ring
  rw [h, round2_eq_self_of_cents]

/-- A sum of two cent-rounded values is already cent-rounded. -/
theorem round2_add_self (x y : ℚ) :
    round2 (round2 x + round2 y) = round2 x + round2 y := by
  have h : round2 x + round2 y =
      ((⌊x * 100 + 1/2⌋ + ⌊y * 100 + 1/2⌋ : ℤ) : ℚ) / 100 := by
    rw [round2_eq_cents, round2_eq_cents]; push_cast; ring
  rw [h, round2_eq_self_of_cents]

/-- Splitting `t` into `q` equal cent-rounded parts reproduces `t` up to `q` half-cents. -/
theorem abs_int_mul_round2_div_sub_le (q : ℤ) (hq : 1 ≤ q) (t : ℚ) :
    |(q:ℚ) * round2 (t / (q:ℚ)) - t| ≤ (q:ℚ) / 200 := by
  have hq0 : (0:ℚ) < (q:ℚ) := by exact_mod_cast (by omega : (0:ℤ) < q)
  have h := abs_round2_sub_le (t / (q:ℚ))
  have hrw : (q:ℚ) * round2 (t / (q:ℚ)) - t =
      (q:ℚ) * (round2 (t / (q:ℚ)) - t / (q:ℚ)) := by
    field_simp
    ring
  rw [hrw, abs_mul, abs_of_pos hq0]
  calc (q:ℚ) * |round2 (t / (q:ℚ)) - t / (q:ℚ)|
      ≤ (q:ℚ) * (1/200) := mul_le_mul_of_nonneg_left h (le_of_lt hq0)
    _ = (q:ℚ) / 200 := by ring

/-- A line item whose amount is exactly quantity × unit price never yields a calculation error. -/
theorem lineItemChecks_shape (i : ℕ) (q p : ℚ) (c : JsNum) (hq : q ≠ 0) :
    (lineItemChecks i
      { quantity := some q, unitPrice := some p, amount := some (q * p),
        confidence := c }).1 = [] := by
  by_cases hp : p = 0
  · simp [lineItemChecks, numTruthy, hp]
  · simp [lineItemChecks, numTruthy, numVal, hq, hp, mul_ne_zero hq hp, sub_self, abs_zero]

/-- The mock shape has all required fields. -/
theorem mockShape_required_empty (now : ℤ) (vendor email invNum : String) (q1 q2 : ℤ)
    (p1 p2 c1 c2 S T cAll : ℚ) (hv : vendor ≠ "") (hn : invNum ≠ "") :
    validateRequiredFields (mockShape now vendor email invNum q1 q2 p1 p2 c1 c2 S T cAll)
      = [] := by
  simp [validateRequiredFields, mockShape, strTruthy, hv, hn]

/-- The mock shape's dates parse, so format checks yield no errors. -/
theorem mockShape_formats_noerrors (now : ℤ) (vendor email invNum : String) (q1 q2 : ℤ)
    (p1 p2 c1 c2 S T cAll : ℚ) :
    (validateFormats now (mockShape now vendor email invNum q1 q2 p1 p2 c1 c2 S T cAll)).1
      = [] := by
  simp [validateFormats, mockShape]

/-- The mock shape violates no business rule when its total is positive. -/
theorem mockShape_business_noerrors (now : ℤ) (vendor email invNum : String) (q1 q2 : ℤ)
    (p1 p2 c1 c2 S T cAll : ℚ) (hTot : 0 < S + T) :
    (validateBusinessRules (mockShape now vendor email invNum q1 q2 p1 p2 c1 c2 S T cAll)).1
      = [] := by
  simp [validateBusinessRules, mockShape, numTruthy, numVal,
    (show ¬(now + 30 * 24 * 60 * 60 * 1000 < now) by omega),
    (show ¬(S + T ≤ 0) by linarith), (show S + T ≠ 0 by linarith)]

/-- The mock shape passes all arithmetic error checks: item amounts are exact and the subtotal discrepancy is far below the 5% relative threshold. -/
theorem mockShape_calc_noerrors (now : ℤ) (vendor email invNum : String) (q1 q2 : ℤ)
    (p1 p2 c1 c2 S T cAll : ℚ) (hq1 : 1 ≤ q1) (hq2 : 1 ≤ q2)
    (hS : 4999 ≤ S) (hT : 0 < T)
    (hsum : |S - ((q1:ℚ) * p1 + (q2:ℚ) * p2)| ≤ 1/40) :
    (validateCalculations (mockShape now vendor email invNum q1 q2 p1 p2 c1 c2 S T cAll)).1
      = [] := by
  have hq1Q : ((q1:ℚ)) ≠ 0 := Int.cast_ne_zero.mpr (by omega)
  have hq2Q : ((q2:ℚ)) ≠ 0 := Int.cast_ne_zero.mpr (by omega)
  have hit1 := lineItemChecks_shape 0 (q1:ℚ) p1 (some c1) hq1Q
  have hit2 := lineItemChecks_shape 1 (q2:ℚ) p2 (some c2) hq2Q
  have hS0 : S ≠ 0 := by linarith
  have hcs : (0:ℚ) + (q1:ℚ) * p1 + (q2:ℚ) * p2 = (q1:ℚ) * p1 + (q2:ℚ) * p2 := by ring
  simp only [validateCalculations, mockShape, List.isEmpty_cons, Bool.false_eq_true,
    if_false, List.enum, List.enumFrom, List.map_cons, List.map_nil, List.flatten,
    hit1, hit2, List.nil_append, List.append_nil, calculatedSubtotal, List.foldl,
    numVal, Option.getD, numTruthy, strTruthy]
  rw [hcs]
  have hST : S + T ≠ 0 := by linarith
  by_cases hdiff : |S - ((q1:ℚ) * p1 + (q2:ℚ) * p2)| > 1/100
  · have hcpos : (0:ℚ) < (q1:ℚ) * p1 + (q2:ℚ) * p2 := by
      linarith [(abs_le.mp hsum).2]
    have hc0 : (q1:ℚ) * p1 + (q2:ℚ) * p2 ≠ 0 := ne_of_gt hcpos
    have hratio : ¬(|S - ((q1:ℚ) * p1 + (q2:ℚ) * p2)| /
        ((q1:ℚ) * p1 + (q2:ℚ) * p2) > 1/20) := by
      rw [not_lt, div_le_iff₀ hcpos]
      have h2 := (abs_le.mp hsum).2
      have h1 := (abs_le.mp hsum).1
      have : |S - ((q1:ℚ) * p1 + (q2:ℚ) * p2)| ≤ 1/40 := hsum
      linarith [this]
    have hdiff2 : (100:ℚ)⁻¹ < |S - ((q1:ℚ) * p1 + (q2:ℚ) * p2)| := by
      rw [← one_div]; exact hdiff
    have hratio2 : ¬((20:ℚ)⁻¹ < |S - ((q1:ℚ) * p1 + (q2:ℚ) * p2)| /
        ((q1:ℚ) * p1 + (q2:ℚ) * p2)) := by
      rw [← one_div]; exact hratio
    simp [hdiff2, hc0, hratio2, hS0, hST, sub_zero, add_zero, sub_self, abs_zero,
      (show ¬((100:ℚ) < 0) by norm_num), (show ¬((20:ℚ) < 0) by norm_num)]
  · have hdiff2 : ¬((100:ℚ)⁻¹ < |S - ((q1:ℚ) * p1 + (q2:ℚ) * p2)|) := by
      rw [← one_div]; exact hdiff
    simp [hdiff2, hS0, hST, sub_zero, add_zero, sub_self, abs_zero,
      (show ¬((100:ℚ) < 0) by norm_num), (show ¬((20:ℚ) < 0) by norm_num)]

/-- Every in-range vendor-pool lookup returns a nonempty name. -/
theorem mockVendors_getD_ne_empty (n : ℕ) (hn : n ≤ 3) :
    mockVendors.getD n "" ≠ "" := by
  interval_cases n <;> decide

/-- Appending to a nonempty string stays nonempty. -/
theorem str_append_ne_empty (s t : String) (hs : s ≠ "") : s ++ t ≠ "" := by
  intro h
  have hd := congrArg String.data h
  rw [String.data_append] at hd
  have hnil := List.append_eq_nil.mp hd
  exact hs (String.ext (hnil.1.trans rfl))

/-- The mock shape validates with zero errors. -/
theorem mockShape_errors_empty (now : ℤ) (vendor email invNum : String) (q1 q2 : ℤ)
    (p1 p2 c1 c2 S T cAll : ℚ) (hv : vendor ≠ "") (hn : invNum ≠ "")
    (hq1 : 1 ≤ q1) (hq2 : 1 ≤ q2)
    (hS : 4999 ≤ S) (hT : 0 < T)
    (hsum : |S - ((q1:ℚ) * p1 + (q2:ℚ) * p2)| ≤ 1/40) :
    (validateInvoice now (mockShape now vendor email invNum q1 q2 p1 p2 c1 c2 S T cAll)).errors
      = [] := by
  have h1 := mockShape_required_empty now vendor email invNum q1 q2 p1 p2 c1 c2 S T cAll hv hn
  have h2 := mockShape_calc_noerrors now vendor email invNum q1 q2 p1 p2 c1 c2 S T cAll
    hq1 hq2 hS hT hsum
  have h3 := mockShape_formats_noerrors now vendor email invNum q1 q2 p1 p2 c1 c2 S T cAll
  have h4 := mockShape_business_noerrors now vendor email invNum q1 q2 p1 p2 c1 c2 S T cAll
    (by linarith)
  show validateRequiredFields (mockShape now vendor email invNum q1 q2 p1 p2 c1 c2 S T cAll) ++
    (validateCalculations (mockShape now vendor email invNum q1 q2 p1 p2 c1 c2 S T cAll)).1 ++
    (validateFormats now (mockShape now vendor email invNum q1 q2 p1 p2 c1 c2 S T cAll)).1 ++
    (validateBusinessRules (mockShape now vendor email invNum q1 q2 p1 p2 c1 c2 S T cAll)).1 = []
  rw [h1, h2, h3, h4]
  rfl

/-- The generator's output is an instance of the mock shape: the rounding identities collapse its amount and total fields to the shape's exact forms. -/
theorem generateMock_eq_shape (now : ℤ) (r : MockRand) :
    generateMockInvoiceData now r =
      mockShape now
        (mockVendors.getD (Int.toNat ⌊r.uVendor * (mockVendors.length : ℚ)⌋) "")
        ("contact@" ++
          stripSpacesLower
            (mockVendors.getD (Int.toNat ⌊r.uVendor * (mockVendors.length : ℚ)⌋) "") ++
          ".com")
        ("INV-" ++ toString ⌊r.uInv * 900000 + 100000⌋)
        ⌊r.uQ1 * 10 + 1⌋ ⌊r.uQ2 * 5 + 1⌋
        (round2 (r.uP1 * 2000 + 500))
        (round2 ((round2 (r.uSub * 50000 + 5000) -
          (⌊r.uQ1 * 10 + 1⌋ : ℚ) * round2 (r.uP1 * 2000 + 500)) / (⌊r.uQ2 * 5 + 1⌋ : ℚ)))
        (9/10 + r.uConf1 * (1/10)) (9/10 + r.uConf2 * (1/10))
        (round2 (r.uSub * 50000 + 5000))
        (round2 (round2 (r.uSub * 50000 + 5000) * 18 / 100))
        (17/20 + r.uScore * (1/10)) := by
  simp only [generateMockInvoiceData, mockShape]
  rw [round2_int_mul ⌊r.uQ1 * 10 + 1⌋ (r.uP1 * 2000 + 500)]
  rw [round2_int_mul ⌊r.uQ2 * 5 + 1⌋ ((round2 (r.uSub * 50000 + 5000) -
    (⌊r.uQ1 * 10 + 1⌋ : ℚ) * round2 (r.uP1 * 2000 + 500)) / (⌊r.uQ2 * 5 + 1⌋ : ℚ))]
  rw [round2_add_self (r.uSub * 50000 + 5000)
    (round2 (r.uSub * 50000 + 5000) * 18 / 100)]

/-- C7 (amended): every synthetic-fallback candidate has line-item amounts
exactly equal to quantity × unit price, tax equal to the cent-rounding of
18% of the subtotal (within 0.005 of it), total exactly subtotal + tax, and
an overall confidence in [0.85, 0.95]; the line-item amounts sum to the
subtotal only within 0.025, and validating the candidate yields zero errors,
so the job status becomes `completed`. -/
theorem C7_mock_candidate_consistent (r : MockRand) (hr : r.InRange) (now : ℤ) :
    (∀ item ∈ ((generateMockInvoiceData now r).lineItems.getD []),
      numVal item.amount = numVal item.quantity * numVal item.unitPrice) ∧
    |numVal (generateMockInvoiceData now r).subtotal -
      sumLineItemAmounts (generateMockInvoiceData now r)| ≤ 1/40 ∧
    numVal (generateMockInvoiceData now r).taxAmount =
      round2 (numVal (generateMockInvoiceData now r).subtotal * 18 / 100) ∧
    |numVal (generateMockInvoiceData now r).taxAmount -
      numVal (generateMockInvoiceData now r).subtotal * 18 / 100| ≤ 1/200 ∧
    numVal (generateMockInvoiceData now r).totalAmount =
      numVal (generateMockInvoiceData now r).subtotal +
      numVal (generateMockInvoiceData now r).taxAmount ∧
    17/20 ≤ numVal (generateMockInvoiceData now r).confidenceScore ∧
    numVal (generateMockInvoiceData now r).confidenceScore ≤ 19/20 ∧
    (validateInvoice now (generateMockInvoiceData now r)).errors = [] ∧
    processSuccessStatus now (generateMockInvoiceData now r) = Status.completed := by
  obtain ⟨hv0, hv1, hc0, hc1, hs0, hs1, hi0, hi1, hq10, hq11, hp10, hp11, hq20, hq21,
    hcf10, hcf11, hcf20, hcf21, hsc0, hsc1⟩ := hr
  rw [generateMock_eq_shape now r]
  have hq1l : (1:ℤ) ≤ ⌊r.uQ1 * 10 + 1⌋ := Int.le_floor.mpr (by push_cast; nlinarith)
  have hq2l : (1:ℤ) ≤ ⌊r.uQ2 * 5 + 1⌋ := Int.le_floor.mpr (by push_cast; nlinarith)
  have hq2u : ⌊r.uQ2 * 5 + 1⌋ ≤ 5 := by
    have h : ⌊r.uQ2 * 5 + 1⌋ < 6 := Int.floor_lt.mpr (by push_cast; nlinarith)
    omega
  have hSd := abs_le.mp (abs_round2_sub_le (r.uSub * 50000 + 5000))
  have hS : (4999:ℚ) ≤ round2 (r.uSub * 50000 + 5000) := by nlinarith [hSd.1, hSd.2]
  have hTd := abs_le.mp (abs_round2_sub_le (round2 (r.uSub * 50000 + 5000) * 18 / 100))
  have hT : (0:ℚ) < round2 (round2 (r.uSub * 50000 + 5000) * 18 / 100) := by
    nlinarith [hTd.1, hTd.2]
  have hq2Qu : ((⌊r.uQ2 * 5 + 1⌋ : ℤ) : ℚ) ≤ 5 := by exact_mod_cast hq2u
  have hstep := abs_int_mul_round2_div_sub_le ⌊r.uQ2 * 5 + 1⌋ hq2l
    (round2 (r.uSub * 50000 + 5000) -
      (⌊r.uQ1 * 10 + 1⌋ : ℚ) * round2 (r.uP1 * 2000 + 500))
  set S := round2 (r.uSub * 50000 + 5000) with hSdef
  set p1R := round2 (r.uP1 * 2000 + 500) with hp1def
  set q1Q : ℚ := ((⌊r.uQ1 * 10 + 1⌋ : ℤ) : ℚ) with hq1def
  set q2Q : ℚ := ((⌊r.uQ2 * 5 + 1⌋ : ℤ) : ℚ) with hq2def
  set p2R := round2 ((S - q1Q * p1R) / q2Q) with hp2def
  set T := round2 (S * 18 / 100) with hTdef
  have hsum : |S - (q1Q * p1R + q2Q * p2R)| ≤ 1/40 := by
    have heq : S - (q1Q * p1R + q2Q * p2R) = -(q2Q * p2R - (S - q1Q * p1R)) := by ring
    rw [heq, abs_neg]
    calc |q2Q * p2R - (S - q1Q * p1R)| ≤ q2Q / 200 := hstep
      _ ≤ 1/40 := by linarith
  have hvend : mockVendors.getD (Int.toNat ⌊r.uVendor * (mockVendors.length : ℚ)⌋) "" ≠ "" := by
    apply mockVendors_getD_ne_empty
    have hlen : ((mockVendors.length : ℕ) : ℚ) = 4 := by norm_num [mockVendors]
    have hfl : ⌊r.uVendor * ((mockVendors.length : ℕ) : ℚ)⌋ < 4 :=
      Int.floor_lt.mpr (by rw [hlen]; push_cast; nlinarith)
    exact Int.toNat_le.mpr (by omega)
  have hinvn : ("INV-" ++ toString ⌊r.uInv * 900000 + 100000⌋) ≠ "" :=
    str_append_ne_empty "INV-" _ (by decide)
  have herrs := mockShape_errors_empty now
    (mockVendors.getD (Int.toNat ⌊r.uVendor * (mockVendors.length : ℚ)⌋) "")
    ("contact@" ++
      stripSpacesLower
        (mockVendors.getD (Int.toNat ⌊r.uVendor * (mockVendors.length : ℚ)⌋) "") ++
      ".com")
    ("INV-" ++ toString ⌊r.uInv * 900000 + 100000⌋)
    ⌊r.uQ1 * 10 + 1⌋ ⌊r.uQ2 * 5 + 1⌋ p1R p2R
    (9/10 + r.uConf1 * (1/10)) (9/10 + r.uConf2 * (1/10)) S T
    (17/20 + r.uScore * (1/10))
    hvend hinvn hq1l hq2l hS hT hsum
  refine ⟨?_, ?_, ?_, ?_, ?_, ?_, ?_, herrs, ?_⟩
  · intro item hitem
    simp only [mockShape, Option.getD, List.mem_cons, List.not_mem_nil, or_false] at hitem
    rcases hitem with rfl | rfl
    · simp [numVal]
    · simp [numVal]
  · simp only [mockShape, numVal, sumLineItemAmounts, calculatedSubtotal, Option.getD,
      List.foldl]
    have hz : (0:ℚ) + q1Q * p1R + q2Q * p2R = q1Q * p1R + q2Q * p2R := by ring
    rw [hz]
    exact hsum
  · simp [mockShape, numVal]
  · simp only [mockShape, numVal]
    exact abs_round2_sub_le (S * 18 / 100)
  · simp [mockShape, numVal]
  · clear herrs hstep hsum hSd hTd
    simp only [mockShape, numVal, Option.getD_some]
    linarith
  · clear herrs hstep hsum hSd hTd
    simp only [mockShape, numVal, Option.getD_some]
    linarith
  · unfold processSuccessStatus processInvoiceFinalStatus
    rw [herrs]
    simp

/-- C7 counterexample: with draws landing on subtotal 5000.00, a first line
item of 1 × 500.01 and a second of quantity 3, the second unit price is the
cent-rounding of 4499.99 / 3 = 1500.00, so the line-item amounts sum to
5000.01 — the synthetic candidate's subtotal does not equal the sum of its
line-item amounts exactly. -/
theorem C7_mock_subtotal_mismatch_counterexample :
    (generateMockInvoiceData 0 mockDrawExample).subtotal = some 5000 ∧
    sumLineItemAmounts (generateMockInvoiceData 0 mockDrawExample) = 500001/100 ∧
    sumLineItemAmounts (generateMockInvoiceData 0 mockDrawExample) ≠
      numVal (generateMockInvoiceData 0 mockDrawExample).subtotal := by
  refine ⟨?_, ?_, ?_⟩ <;>
  · norm_num [generateMockInvoiceData, mockDrawExample, mockVendors, stripSpacesLower,
      round2, sumLineItemAmounts, calculatedSubtotal, numVal]

/-- Witness for C7 (amended): the concrete draw vector is in range, and the
generated candidate validates with zero errors and completes. -/
theorem C7_mock_candidate_consistent_witness :
    mockDrawExample.InRange ∧
    (validateInvoice 0 (generateMockInvoiceData 0 mockDrawExample)).errors = [] ∧
    processSuccessStatus 0 (generateMockInvoiceData 0 mockDrawExample) = Status.completed := by
  have hin : mockDrawExample.InRange := by
    norm_num [MockRand.InRange, mockDrawExample]
  exact ⟨hin, (C7_mock_candidate_consistent mockDrawExample hin 0).2.2.2.2.2.2.2.1,
    (C7_mock_candidate_consistent mockDrawExample hin 0).2.2.2.2.2.2.2.2⟩

end InvoiceApproval
